import Mathlib

/-!
Verification of the distribution-workflow core of the mandrillmarketing
repository: a shallow embedding of the data model (src/types.ts), the
service layer (src/services/videoService.ts, src/services/youtubeService.ts)
and the component-level workflow logic (src/components/VideoDetailModal.tsx,
src/components/DistributionModal.tsx, src/components/CalendarView.tsx),
together with theorems settling the frozen claims about the natural-language
specification.

Modelling conventions:
* JavaScript numbers (video dimensions in pixels and durations in seconds)
  are embedded as exact rationals; every comparison performed by the code
  stays away from the binary-rounding boundary at realistic video sizes,
  so the rational model and the IEEE double agree on every verdict proved
  here.  Degenerate heights (h = 0) are excluded by hypothesis wherever a
  ratio is involved, because there the double model produces Infinity/NaN
  while rational division yields 0.
* `null`/`undefined`-able strings are `Option String`; JavaScript
  truthiness of such a value (`if (x)`) is `truthyStr`, which is false for
  both `none` and the empty string.
* Firestore documents are immutable Lean structures; an update produces a
  new value.  The in-memory React state and the persisted document are
  kept separate where the distinction matters (claim C2).
-/

namespace Mandrill

/-- `Platform` from src/types.ts. -/
inductive Platform where
  | instagram
  | tiktok
  | kwai
  | youtube
  | linkedin
deriving DecidableEq, Repr

/-- `PostType` from src/types.ts. -/
inductive PostType where
  | reel
  | story
  | feed
  | shorts
  | video
deriving DecidableEq, Repr

/-- `VideoStatus` from src/types.ts. -/
inductive VideoStatus where
  | pending
  | ready
  | approved
  | processing
  | published
  | dismissed
  | uploading
  | error
  | scheduled
deriving DecidableEq, Repr

/-- `ProjectStats` from src/types.ts. -/
structure ProjectStats where
  total : Nat
  pendingReview : Nat
  approved : Nat
  scheduledOrPublished : Nat
  discarded : Nat
deriving DecidableEq, Repr

/-- The metadata bag of `DistributionConfig` from src/types.ts (the fields the
workflow logic reads and writes). -/
structure ConfigMetadata where
  title : Option String := none
  caption : Option String := none
  tags : Option String := none
  playlistId : Option String := none
  categoryId : Option String := none
deriving DecidableEq, Repr

/-- `DistributionConfig` from src/types.ts. -/
structure DistributionConfig where
  platform : Platform
  accountId : String
  postType : PostType
  externalId : Option String := none
  metadata : ConfigMetadata := {}
deriving DecidableEq, Repr

/-- `YouTubeMetadata` from src/types.ts (privacy status is irrelevant to the
claims and omitted). -/
structure YouTubeMetadata where
  title : String
  description : String
  tags : List String
  categoryId : String
  playlistId : Option String := none
deriving DecidableEq, Repr

/-- `SocialMetadata` from src/types.ts. -/
structure SocialMetadata where
  caption : String
deriving DecidableEq, Repr

/-- The workflow-relevant fields of `VideoAsset` from src/types.ts. -/
structure VideoAsset where
  id : String
  projectId : Option String := none
  status : VideoStatus
  scheduledDate : Option String := none
  distributionConfig : List DistributionConfig := []
  platforms : List Platform := []
deriving DecidableEq, Repr

/-- The workflow-relevant fields of `Integration` from src/types.ts: the
account id, its platform, and the access token inside `config`. -/
structure Integration where
  id : String
  platform : Platform
  accessToken : Option String := none
deriving DecidableEq, Repr

/-- JavaScript `String.prototype.trim()`: strip leading and trailing
whitespace (written structurally so that concrete instances evaluate). -/
def jsTrim (s : String) : String :=
  String.mk (((s.data.dropWhile Char.isWhitespace).reverse.dropWhile
    Char.isWhitespace).reverse)

/-- JavaScript truthiness of an optional string: `undefined`, `null` and
`''` are falsy, every other string is truthy. -/
def truthyStr : Option String → Bool
  | none => false
  | some s => s ≠ ""

/-- `array.includes(p)` on a platform list. -/
def platformIncludes (l : List Platform) (p : Platform) : Bool :=
  l.any fun q => decide (q = p)

-- ---------------------------------------------------------------------------
-- src/services/videoService.ts
-- ---------------------------------------------------------------------------

/-- One step of the `videos.forEach` loop in `recalculateProjectStats`
(src/services/videoService.ts:36-47). -/
def statsStep (stats : ProjectStats) (v : VideoAsset) : ProjectStats :=
  if v.status = .dismissed then
    { stats with discarded := stats.discarded + 1 }
  else if v.status = .published ∨ v.status = .scheduled then
    { stats with scheduledOrPublished := stats.scheduledOrPublished + 1 }
  else if v.status = .approved then
    { stats with approved := stats.approved + 1 }
  else
    -- pending, ready, transcribing, error, uploading, processing
    { stats with pendingReview := stats.pendingReview + 1 }

/-- `recalculateProjectStats` (src/services/videoService.ts:22-58), as the
pure partition of the project's videos; the initial record already carries
`total := videos.length` exactly as in the source. -/
def recalculateProjectStats (videos : List VideoAsset) : ProjectStats :=
  videos.foldl statsStep
    { total := videos.length
      pendingReview := 0
      approved := 0
      scheduledOrPublished := 0
      discarded := 0 }

/-- `markVideoAsProcessing` (src/services/videoService.ts:216-239).  `now`
stands for `new Date().toISOString()` evaluated in the else-branch. -/
def markVideoAsProcessing (now : String) (configs : List DistributionConfig)
    (scheduledDate : Option String) (v : VideoAsset) : VideoAsset :=
  let newStatus : VideoStatus :=
    if truthyStr scheduledDate then .scheduled else .published
  { v with
    status := newStatus
    platforms := configs.map (·.platform)
    distributionConfig := configs
    scheduledDate := if truthyStr scheduledDate then scheduledDate else some now }

/-- The per-entry strip in `cancelVideoScheduling`
(src/services/videoService.ts:251-254): `const { externalId, ...rest } = c`. -/
def stripExternalId (c : DistributionConfig) : DistributionConfig :=
  { c with externalId := none }

/-- `cancelVideoScheduling` (src/services/videoService.ts:241-266): clears the
external ids, deletes `scheduledDate` and sets status back to `approved`. -/
def cancelVideoScheduling (v : VideoAsset) : VideoAsset :=
  { v with
    status := .approved
    scheduledDate := none
    distributionConfig := v.distributionConfig.map stripExternalId }

-- ---------------------------------------------------------------------------
-- src/components/VideoDetailModal.tsx — state and configuration management
-- ---------------------------------------------------------------------------

/-- The `platformSettings` record of VideoDetailModal
(`Record<Platform, { postType: string }>`, src/components/VideoDetailModal.tsx:73-79). -/
structure PlatformSettings where
  youtube : PostType
  instagram : PostType
  tiktok : PostType
  kwai : PostType
  linkedin : PostType
deriving DecidableEq, Repr

/-- Read `platformSettings[p].postType`. -/
def PlatformSettings.get (s : PlatformSettings) : Platform → PostType
  | .youtube => s.youtube
  | .instagram => s.instagram
  | .tiktok => s.tiktok
  | .kwai => s.kwai
  | .linkedin => s.linkedin

/-- Write `platformSettings[p].postType`. -/
def PlatformSettings.set (s : PlatformSettings) (p : Platform) (t : PostType) :
    PlatformSettings :=
  match p with
  | .youtube => { s with youtube := t }
  | .instagram => { s with instagram := t }
  | .tiktok => { s with tiktok := t }
  | .kwai => { s with kwai := t }
  | .linkedin => { s with linkedin := t }

/-- The React state of VideoDetailModal that the workflow logic reads:
`selectedPlatforms`, the three shared metadata objects, `platformSettings`
and `distributionConfigs`. -/
structure DetailState where
  selectedPlatforms : List Platform
  ytData : YouTubeMetadata
  igData : SocialMetadata
  ttData : SocialMetadata
  platformSettings : PlatformSettings
  distributionConfigs : List DistributionConfig
deriving DecidableEq, Repr

/-- `getPlatformConfigs` (src/components/VideoDetailModal.tsx:151-153). -/
def getPlatformConfigs (st : DetailState) (platform : Platform) :
    List DistributionConfig :=
  st.distributionConfigs.filter fun c => decide (c.platform = platform)

/-- `isAccountSelected` (src/components/VideoDetailModal.tsx:155-157). -/
def isAccountSelected (st : DetailState) (platform : Platform)
    (accountId : String) : Bool :=
  st.distributionConfigs.any fun c =>
    decide (c.platform = platform) && decide (c.accountId = accountId)

/-- `ytData.tags.join(', ')`. -/
def joinTags (tags : List String) : String :=
  String.intercalate ", " tags

/-- `ytData.playlistId || null` — the `||` coalesces both `undefined` and the
empty string to `null`. -/
def playlistOrNull (o : Option String) : Option String :=
  match o with
  | none => none
  | some s => if s = "" then none else some s

/-- The metadata seeded into a freshly created config entry in
`toggleAccountSelection` (src/components/VideoDetailModal.tsx:167-175):
title/caption/tags/playlist/category for YouTube, caption only for
Instagram and TikTok. -/
def seedMetadata (st : DetailState) (platform : Platform) : ConfigMetadata :=
  if platform = .youtube then
    { title := some st.ytData.title
      caption := some st.ytData.description
      tags := some (joinTags st.ytData.tags)
      playlistId := playlistOrNull st.ytData.playlistId
      categoryId := some st.ytData.categoryId }
  else
    { caption :=
        some (if platform = .instagram then st.igData.caption else st.ttData.caption) }

/-- `toggleAccountSelection` (src/components/VideoDetailModal.tsx:159-187):
remove the (platform, account) entry if present, else append a new entry
seeded with the platform's current shared metadata and sub-type; the whole
rewritten array is then persisted by `saveDistributionConfigs`. -/
def toggleAccountSelection (st : DetailState) (platform : Platform)
    (accountId : String) : DetailState :=
  let newConfigs :=
    if isAccountSelected st platform accountId then
      st.distributionConfigs.filter fun c =>
        !(decide (c.platform = platform) && decide (c.accountId = accountId))
    else
      st.distributionConfigs ++
        [{ platform := platform
           accountId := accountId
           postType := st.platformSettings.get platform
           externalId := none
           metadata := seedMetadata st platform }]
  { st with distributionConfigs := newConfigs }

/-- `updatePostTypeForPlatform` (src/components/VideoDetailModal.tsx:189-205):
update the shared setting and rewrite the sub-type on every existing config
entry of that platform. -/
def updatePostTypeForPlatform (st : DetailState) (platform : Platform)
    (newType : PostType) : DetailState :=
  { st with
    platformSettings := st.platformSettings.set platform newType
    distributionConfigs := st.distributionConfigs.map fun c =>
      if c.platform = platform then { c with postType := newType } else c }

/-- `togglePlatformActive` (src/components/VideoDetailModal.tsx:475-499),
restricted to its effect on `selectedPlatforms`. -/
def togglePlatformActive (st : DetailState) (platform : Platform)
    (isActive : Bool) : DetailState :=
  let newPlatforms :=
    if isActive then
      if platformIncludes st.selectedPlatforms platform then st.selectedPlatforms
      else st.selectedPlatforms ++ [platform]
    else
      st.selectedPlatforms.filter fun p => !decide (p = platform)
  { st with selectedPlatforms := newPlatforms }

-- ---------------------------------------------------------------------------
-- src/components/VideoDetailModal.tsx — validation and YouTube rules
-- ---------------------------------------------------------------------------

/-- `isInstagramRatioValid` (src/components/VideoDetailModal.tsx:249-253):
valid when dimensions are unknown, else `0.50 ≤ width/height ≤ 0.85`. -/
def isInstagramRatioValid (videoDimensions : Option (ℚ × ℚ)) : Bool :=
  match videoDimensions with
  | none => true -- assume valid if loading or error
  | some (w, h) =>
    let ratio := w / h
    decide ((0.50 : ℚ) ≤ ratio) && decide (ratio ≤ (0.85 : ℚ))

/-- `isInstagramDurationValid` (src/components/VideoDetailModal.tsx:255-258):
`!videoDuration` is true both for `null` and for `0`, so a zero duration is
treated as valid exactly like a missing one. -/
def isInstagramDurationValid (videoDuration : Option ℚ) : Bool :=
  match videoDuration with
  | none => true
  | some d =>
    if d = 0 then true -- JS falsiness of 0 in `!videoDuration`
    else decide ((3 : ℚ) ≤ d) && decide (d ≤ (3600 : ℚ))

/-- `isInstagramValid` (src/components/VideoDetailModal.tsx:260). -/
def isInstagramValid (videoDimensions : Option (ℚ × ℚ))
    (videoDuration : Option ℚ) : Bool :=
  isInstagramRatioValid videoDimensions && isInstagramDurationValid videoDuration

/-- `getYouTubeRuleType` (src/components/VideoDetailModal.tsx:263-275).
`!videoDimensions || !videoDuration` also fires for a duration of `0`. -/
def getYouTubeRuleType (videoDimensions : Option (ℚ × ℚ))
    (videoDuration : Option ℚ) : Option PostType :=
  match videoDimensions, videoDuration with
  | none, _ => none
  | some _, none => none
  | some (w, h), some d =>
    if d = 0 then none -- JS falsiness of 0 in `!videoDuration`
    else
      let ratio := w / h
      let isSquare := decide ((0.9 : ℚ) ≤ ratio) && decide (ratio ≤ (1.1 : ℚ))
      let isVertical := decide (ratio < (0.9 : ℚ))
      let isShortDuration := decide (d < (60 : ℚ))
      if (isSquare || isVertical) && isShortDuration then some .shorts
      else some .video

/-- The `useEffect` enforcing the YouTube rule
(src/components/VideoDetailModal.tsx:278-285): whenever dimensions or
duration change, re-derive the rule type and, if it differs from the stored
sub-type, run `updatePostTypeForPlatform('youtube', ruleType)`. -/
def enforceYouTubeRule (videoDimensions : Option (ℚ × ℚ))
    (videoDuration : Option ℚ) (st : DetailState) : DetailState :=
  match getYouTubeRuleType videoDimensions videoDuration with
  | none => st
  | some ruleType =>
    if st.platformSettings.youtube ≠ ruleType then
      updatePostTypeForPlatform st .youtube ruleType
    else st

/-- The Instagram toggle button's onClick
(src/components/VideoDetailModal.tsx:961-967): an invalid video cannot be
toggled at all (the handler returns before `togglePlatformActive`). -/
def instagramToggleClick (videoDimensions : Option (ℚ × ℚ))
    (videoDuration : Option ℚ) (st : DetailState) : DetailState :=
  if !(isInstagramValid videoDimensions videoDuration) then st
  else
    togglePlatformActive st .instagram
      (!(platformIncludes st.selectedPlatforms .instagram))

-- ---------------------------------------------------------------------------
-- src/components/VideoDetailModal.tsx — approval readiness
-- ---------------------------------------------------------------------------

/-- `isYouTubeReady` (src/components/VideoDetailModal.tsx:297). -/
def isYouTubeReady (st : DetailState) : Bool :=
  !(platformIncludes st.selectedPlatforms .youtube) ||
    (decide (jsTrim st.ytData.title ≠ "") && decide (jsTrim st.ytData.description ≠ ""))

/-- `isInstagramReady` (src/components/VideoDetailModal.tsx:298). -/
def isInstagramReady (st : DetailState) : Bool :=
  !(platformIncludes st.selectedPlatforms .instagram) ||
    decide (jsTrim st.igData.caption ≠ "")

/-- `isTikTokReady` (src/components/VideoDetailModal.tsx:299). -/
def isTikTokReady (st : DetailState) : Bool :=
  !(platformIncludes st.selectedPlatforms .tiktok) ||
    decide (jsTrim st.ttData.caption ≠ "")

/-- `hasAccountForYoutube` (src/components/VideoDetailModal.tsx:302). -/
def hasAccountForYoutube (st : DetailState) : Bool :=
  !(platformIncludes st.selectedPlatforms .youtube) ||
    decide (0 < (getPlatformConfigs st .youtube).length)

/-- `hasAccountForInstagram` (src/components/VideoDetailModal.tsx:303). -/
def hasAccountForInstagram (st : DetailState) : Bool :=
  !(platformIncludes st.selectedPlatforms .instagram) ||
    decide (0 < (getPlatformConfigs st .instagram).length)

/-- `hasAccountForTikTok` (src/components/VideoDetailModal.tsx:304). -/
def hasAccountForTikTok (st : DetailState) : Bool :=
  !(platformIncludes st.selectedPlatforms .tiktok) ||
    decide (0 < (getPlatformConfigs st .tiktok).length)

/-- `isAllReady` (src/components/VideoDetailModal.tsx:306-308). -/
def isAllReady (st : DetailState) : Bool :=
  decide (0 < st.selectedPlatforms.length) &&
    isYouTubeReady st && isInstagramReady st && isTikTokReady st &&
    hasAccountForYoutube st && hasAccountForInstagram st && hasAccountForTikTok st

/-- `handleApproveClick` + `confirmApprove`
(src/components/VideoDetailModal.tsx:501-524): the approve transition is
reachable only when `isAllReady`; it persists the current configs and sets
status `approved`. -/
def approveTransition (st : DetailState) (v : VideoAsset) : Option VideoAsset :=
  if isAllReady st then
    some { v with status := .approved, distributionConfig := st.distributionConfigs }
  else none

-- ---------------------------------------------------------------------------
-- src/components/DistributionModal.tsx — handleConfirm (distribute)
-- ---------------------------------------------------------------------------

/-- The outcome of one `uploadVideoToYouTube` adapter call
(src/services/youtubeService.ts:209-255): either the returned remote video
id or a thrown error message. -/
inductive UploadResult where
  | ok (id : String)
  | err (msg : String)
deriving DecidableEq, Repr

/-- `integrations.find(i => i.id === config.accountId)`
(src/components/DistributionModal.tsx:133). -/
def findIntegration (integrations : List Integration) (accountId : String) :
    Option Integration :=
  integrations.find? fun i => decide (i.id = accountId)

/-- The `for (const config of ytConfigs)` loop of `handleConfirm`
(src/components/DistributionModal.tsx:131-181), as structural recursion over
the flattened config array: non-YouTube entries need no adapter call; a
YouTube entry without a connected, token-bearing integration is skipped with
a warning; otherwise the adapter is invoked — on success the returned id is
written into the entry's `externalId`, on a thrown error the loop stops and
no later entry is attempted.  Returns the (in-memory) updated config array,
the account ids whose adapter call was attempted, and the first error. -/
def uploadLoop (adapter : DistributionConfig → UploadResult)
    (integrations : List Integration) :
    List DistributionConfig →
      List DistributionConfig × List String × Option String
  | [] => ([], [], none)
  | c :: rest =>
    if c.platform = .youtube then
      match findIntegration integrations c.accountId with
      | none =>
        -- "Skipping YouTube upload ...: No token found." — continue
        let (rest2, att, e) := uploadLoop adapter integrations rest
        (c :: rest2, att, e)
      | some integ =>
        if truthyStr integ.accessToken then
          match adapter c with
          | .ok rid =>
            let (rest2, att, e) := uploadLoop adapter integrations rest
            ({ c with externalId := some rid } :: rest2, c.accountId :: att, e)
          | .err m =>
            -- alert + return: stop the whole process, rest untouched
            (c :: rest, [c.accountId], some m)
        else
          let (rest2, att, e) := uploadLoop adapter integrations rest
          (c :: rest2, att, e)
    else
      let (rest2, att, e) := uploadLoop adapter integrations rest
      (c :: rest2, att, e)

/-- The observable outcome of `handleConfirm`: the persisted store document,
the in-memory config array (the mutated `activeConfigs`), the attempted
adapter calls and the propagated error, if any. -/
structure DistributeOutcome where
  video : VideoAsset
  memConfigs : List DistributionConfig
  attempted : List String
  errorMsg : Option String
deriving DecidableEq, Repr

/-- `handleConfirm` (src/components/DistributionModal.tsx:109-194) composed
with `onDistribute` = `markVideoAsProcessing`
(src/services/videoService.ts:216-239).  On an adapter error the handler
returns before `onDistribute`, so the store document `v` is left untouched;
only on full success is the config array persisted and the status
transitioned. -/
def handleConfirm (adapter : DistributionConfig → UploadResult)
    (integrations : List Integration) (now : String)
    (finalDate : Option String) (v : VideoAsset)
    (activeConfigs : List DistributionConfig) : DistributeOutcome :=
  if activeConfigs.length = 0 then
    { video := v, memConfigs := activeConfigs, attempted := [], errorMsg := none }
  else
    match uploadLoop adapter integrations activeConfigs with
    | (configs2, att, some m) =>
      { video := v, memConfigs := configs2, attempted := att, errorMsg := some m }
    | (configs2, att, none) =>
      { video := markVideoAsProcessing now configs2 finalDate v
        memConfigs := configs2
        attempted := att
        errorMsg := none }

-- ---------------------------------------------------------------------------
-- src/components/CalendarView.tsx — cancel schedule
-- ---------------------------------------------------------------------------

/-- The raw HTTP outcome of the YouTube deletion call as seen by
`deleteVideoFromYouTube` (src/services/youtubeService.ts:260-278). -/
inductive DeleteResult where
  | ok
  | notFound
  | err (msg : String)
deriving DecidableEq, Repr

/-- `deleteVideoFromYouTube` (src/services/youtubeService.ts:260-278): a 404
("already deleted") is swallowed with a warning and treated as success; any
other non-ok response throws.  `none` = returned normally, `some m` = threw. -/
def deleteVideoFromYouTube (outcome : String → DeleteResult)
    (videoId : String) : Option String :=
  match outcome videoId with
  | .ok => none
  | .notFound => none -- "Video already deleted or not found on YouTube."
  | .err m => some m

/-- The deletion phase of `onConfirmCancel`
(src/components/CalendarView.tsx:77-94): find the FIRST config entry with
platform `youtube` and a truthy `externalId`; if its integration exists and
carries a token, call the deletion adapter (whose non-404 errors throw);
otherwise skip with a warning.  Returns the thrown error (if any) and the
list of remote ids whose deletion was attempted. -/
def cancelDeletionPhase (outcome : String → DeleteResult)
    (integrations : List Integration) (v : VideoAsset) :
    Option String × List String :=
  match v.distributionConfig.find? fun c =>
      decide (c.platform = .youtube) && truthyStr c.externalId with
  | none => (none, [])
  | some c =>
    match findIntegration integrations c.accountId with
    | none => (none, []) -- "Integration not found ..., skipping YouTube deletion."
    | some integ =>
      if truthyStr integ.accessToken then
        let vid := c.externalId.getD ""
        (deleteVideoFromYouTube outcome vid, [vid])
      else (none, [])

/-- The observable outcome of `onConfirmCancel`: the store document after the
operation, the attempted remote deletions, whether the cancel completed, and
the recomputed project stats (when the video has a project). -/
structure CancelOutcome where
  video : VideoAsset
  attempted : List String
  cancelled : Bool
  statsAfter : Option ProjectStats
deriving DecidableEq, Repr

/-- `onConfirmCancel` (src/components/CalendarView.tsx:72-107) composed with
`cancelVideoScheduling` (src/services/videoService.ts:241-266).  A thrown
deletion error is caught by the surrounding try/catch BEFORE
`cancelVideoScheduling` runs, so on such an error no local state changes.
`otherProjectVideos` are the sibling videos of the same project scanned by
`recalculateProjectStats`. -/
def onConfirmCancel (outcome : String → DeleteResult)
    (integrations : List Integration)
    (otherProjectVideos : List VideoAsset) (v : VideoAsset) : CancelOutcome :=
  match cancelDeletionPhase outcome integrations v with
  | (some _, att) =>
    { video := v, attempted := att, cancelled := false, statsAfter := none }
  | (none, att) =>
    let v2 := cancelVideoScheduling v
    { video := v2
      attempted := att
      cancelled := true
      statsAfter :=
        if v.projectId.isSome then
          some (recalculateProjectStats (v2 :: otherProjectVideos))
        else none }

/-- `handleCancelClick` (src/components/CalendarView.tsx:66-70) gates the
confirmation modal: the cancel operation is reachable only while the video's
status is `scheduled`. -/
def cancelScheduleOp (outcome : String → DeleteResult)
    (integrations : List Integration)
    (otherProjectVideos : List VideoAsset) (v : VideoAsset) :
    Option CancelOutcome :=
  if v.status = .scheduled then
    some (onConfirmCancel outcome integrations otherProjectVideos v)
  else none

-- ---------------------------------------------------------------------------
-- Spec-side predicates (used to compare the code's guard with the spec text)
-- ---------------------------------------------------------------------------

/-- Modelled from the spec's words for the approve guard: the required
metadata per platform — YouTube requires non-empty (trimmed) title AND
description, Instagram and TikTok each require a non-empty caption; the
other platforms have no metadata requirement. -/
def specMetadataReady (st : DetailState) : Platform → Prop
  | .youtube => jsTrim st.ytData.title ≠ "" ∧ jsTrim st.ytData.description ≠ ""
  | .instagram => jsTrim st.igData.caption ≠ ""
  | .tiktok => jsTrim st.ttData.caption ≠ ""
  | _ => True

/-- Modelled from the spec's words: the approve transition is allowed iff at
least one platform is toggled on, every toggled platform has its required
metadata non-empty, and every toggled platform has at least one
DistributionConfig entry. -/
def specApproveGuard (st : DetailState) : Prop :=
  st.selectedPlatforms ≠ [] ∧
    ∀ p ∈ st.selectedPlatforms, specMetadataReady st p ∧ getPlatformConfigs st p ≠ []

-- ---------------------------------------------------------------------------
-- Helper lemmas
-- ---------------------------------------------------------------------------

lemma platformIncludes_iff (l : List Platform) (p : Platform) :
    platformIncludes l p = true ↔ p ∈ l := by
  simp [platformIncludes]

/-- Status partitioning predicates of `recalculateProjectStats`. -/
def isDiscardedStatus (v : VideoAsset) : Bool :=
  decide (v.status = .dismissed)

def isSchedOrPubStatus (v : VideoAsset) : Bool :=
  decide (v.status = .published ∨ v.status = .scheduled)

def isApprovedStatus (v : VideoAsset) : Bool :=
  decide (v.status = .approved)

def isPendingReviewStatus (v : VideoAsset) : Bool :=
  !(isDiscardedStatus v) && !(isSchedOrPubStatus v) && !(isApprovedStatus v)

lemma statsFold_spec (videos : List VideoAsset) : ∀ init : ProjectStats,
    videos.foldl statsStep init =
      { total := init.total
        pendingReview := init.pendingReview + videos.countP isPendingReviewStatus
        approved := init.approved + videos.countP isApprovedStatus
        scheduledOrPublished :=
          init.scheduledOrPublished + videos.countP isSchedOrPubStatus
        discarded := init.discarded + videos.countP isDiscardedStatus } := by
  induction videos with
  | nil => intro init; simp
  | cons v vs ih =>
    intro init
    rw [List.foldl_cons, ih]
    cases hs : v.status <;>
      simp [statsStep, hs, isPendingReviewStatus, isApprovedStatus,
        isSchedOrPubStatus, isDiscardedStatus, List.countP_cons,
        Nat.add_assoc, Nat.add_comm, Nat.add_left_comm]

lemma status_partition_sum (videos : List VideoAsset) :
    videos.countP isPendingReviewStatus + videos.countP isApprovedStatus +
      videos.countP isSchedOrPubStatus + videos.countP isDiscardedStatus =
      videos.length := by
  induction videos with
  | nil => simp
  | cons v vs ih =>
    cases hs : v.status <;>
      simp [List.countP_cons, isPendingReviewStatus, isApprovedStatus,
        isSchedOrPubStatus, isDiscardedStatus, hs] <;>
      omega

/-- A video document holding only a status (all other fields defaulted),
used for concrete stats scenarios. -/
def statusVid (s : VideoStatus) : VideoAsset :=
  { id := "", status := s }

-- ---------------------------------------------------------------------------
-- C6 — project stats partition
-- ---------------------------------------------------------------------------

/-- Claim C6: `recalculateProjectStats` partitions a project's videos by
status — `discarded` counts exactly the dismissed ones, `scheduledOrPublished`
exactly the scheduled/published ones, `approved` exactly the approved ones,
`pendingReview` all remaining ones, and `total` is the list length (hence the
sum of the four buckets); the spec's concrete scenario
[dismissed, approved, scheduled, pending, published] yields
{total 5, pendingReview 1, approved 1, scheduledOrPublished 2, discarded 1}. -/
theorem recalculateProjectStats_partition (videos : List VideoAsset) :
    (recalculateProjectStats videos).total = videos.length
    ∧ (recalculateProjectStats videos).discarded = videos.countP isDiscardedStatus
    ∧ (recalculateProjectStats videos).scheduledOrPublished
        = videos.countP isSchedOrPubStatus
    ∧ (recalculateProjectStats videos).approved = videos.countP isApprovedStatus
    ∧ (recalculateProjectStats videos).pendingReview
        = videos.countP isPendingReviewStatus
    ∧ (recalculateProjectStats videos).total
        = (recalculateProjectStats videos).pendingReview
          + (recalculateProjectStats videos).approved
          + (recalculateProjectStats videos).scheduledOrPublished
          + (recalculateProjectStats videos).discarded
    ∧ recalculateProjectStats
        [statusVid .dismissed, statusVid .approved, statusVid .scheduled,
         statusVid .pending, statusVid .published]
        = { total := 5, pendingReview := 1, approved := 1,
            scheduledOrPublished := 2, discarded := 1 } := by
  have h := statsFold_spec videos
    { total := videos.length, pendingReview := 0, approved := 0,
      scheduledOrPublished := 0, discarded := 0 }
  refine ⟨?_, ?_, ?_, ?_, ?_, ?_, ?_⟩
  · rw [recalculateProjectStats, h]
  · rw [recalculateProjectStats, h]; simp
  · rw [recalculateProjectStats, h]; simp
  · rw [recalculateProjectStats, h]; simp
  · rw [recalculateProjectStats, h]; simp
  · rw [recalculateProjectStats, h]
    simpa using (status_partition_sum videos).symm
  · decide

-- ---------------------------------------------------------------------------
-- C10 — zero duration is treated as valid
-- ---------------------------------------------------------------------------

/-- Claim C10: a video whose extracted duration is exactly 0 seconds passes
the Instagram duration check — the implementation tests JS truthiness of the
duration, so 0 is treated like "not yet known" instead of being rejected
against the 3-second minimum, even when the dimensions are fully known. -/
theorem instagramDuration_zero_passes :
    isInstagramDurationValid (some 0) = true
    ∧ ¬ ((3 : ℚ) ≤ 0)
    ∧ isInstagramValid (some (60, 100)) (some 0) = true := by
  refine ⟨by norm_num [isInstagramDurationValid], by norm_num, ?_⟩
  norm_num [isInstagramValid, isInstagramRatioValid, isInstagramDurationValid]

-- ---------------------------------------------------------------------------
-- C9 — fail-open on unknown media properties
-- ---------------------------------------------------------------------------

/-- Claim C9: while dimensions or duration are still unknown every
eligibility check passes — the Instagram ratio and duration checks both
return valid, the YouTube auto rule derives nothing (so no auto-switch
happens), and the Instagram toggle is not blocked. -/
theorem eligibility_fail_open (dims : Option (ℚ × ℚ)) (dur : Option ℚ)
    (st : DetailState) :
    isInstagramRatioValid none = true
    ∧ isInstagramDurationValid none = true
    ∧ isInstagramValid none none = true
    ∧ ((dims = none ∨ dur = none) → getYouTubeRuleType dims dur = none)
    ∧ ((dims = none ∨ dur = none) → enforceYouTubeRule dims dur st = st)
    ∧ instagramToggleClick none none st
        = togglePlatformActive st .instagram
            (!(platformIncludes st.selectedPlatforms .instagram)) := by
  have hrule : (dims = none ∨ dur = none) → getYouTubeRuleType dims dur = none := by
    rintro (rfl | rfl)
    · rfl
    · cases dims with
      | none => rfl
      | some p => cases p; rfl
  refine ⟨rfl, rfl, rfl, hrule, ?_, ?_⟩
  · intro hcase
    rw [enforceYouTubeRule, hrule hcase]
  · rw [instagramToggleClick]
    simp [isInstagramValid, isInstagramRatioValid, isInstagramDurationValid]

/-- A neutral modal state used to give concrete instances of the theorems. -/
def sampleState : DetailState :=
  { selectedPlatforms := []
    ytData := { title := "", description := "", tags := [], categoryId := "22" }
    igData := { caption := "" }
    ttData := { caption := "" }
    platformSettings :=
      { youtube := .video, instagram := .reel, tiktok := .reel,
        kwai := .video, linkedin := .video }
    distributionConfigs := [] }

/-- Witness for C9 at a concrete input: with dimensions unknown and a
10-second duration the YouTube rule derives nothing and the auto-switch
leaves the state untouched. -/
theorem eligibility_fail_open_witness :
    getYouTubeRuleType none (some 10) = none
    ∧ enforceYouTubeRule none (some 10) sampleState = sampleState := by
  have h := eligibility_fail_open none (some 10) sampleState
  exact ⟨h.2.2.2.1 (Or.inl rfl), h.2.2.2.2.1 (Or.inl rfl)⟩

-- ---------------------------------------------------------------------------
-- C7 — scheduledDate lifecycle
-- ---------------------------------------------------------------------------

/-- A minimal config entry for concrete distribute scenarios. -/
def c7config : DistributionConfig :=
  { platform := .youtube, accountId := "acc1", postType := .video }

/-- A minimal approved video document. -/
def c7video : VideoAsset := { id := "v7", status := .approved }

/-- Counterexample to claim C7: an immediate (non-scheduled) distribute DOES
set `scheduledDate` — `markVideoAsProcessing` writes the current time into it
in the else-branch, so the field is present while status is `published`,
contradicting "present only while the status is scheduled". -/
theorem scheduledDate_set_on_immediate_publish :
    (markVideoAsProcessing "2026-01-01T12:00:00.000Z" [c7config] none c7video).status
        = .published
    ∧ (markVideoAsProcessing "2026-01-01T12:00:00.000Z" [c7config] none c7video).scheduledDate
        = some "2026-01-01T12:00:00.000Z"
    ∧ (markVideoAsProcessing "2026-01-01T12:00:00.000Z" [c7config] none c7video).scheduledDate
        ≠ none := by
  refine ⟨rfl, rfl, by simp [markVideoAsProcessing, truthyStr]⟩

/-- Claim C7 as amended: `scheduledDate` is set by EVERY distribute — to the
chosen date when scheduling, and to the current time on an immediate publish
(so it is present while `scheduled` or `published`, not only while
`scheduled`); `cancelVideoScheduling` removes it and returns the status to
`approved`. -/
theorem scheduledDate_lifecycle (now : String) (configs : List DistributionConfig)
    (sd : Option String) (v : VideoAsset) :
    ((markVideoAsProcessing now configs sd v).status
        = if truthyStr sd then .scheduled else .published)
    ∧ ((markVideoAsProcessing now configs sd v).scheduledDate
        = if truthyStr sd then sd else some now)
    ∧ (markVideoAsProcessing now configs sd v).scheduledDate ≠ none
    ∧ (cancelVideoScheduling v).status = .approved
    ∧ (cancelVideoScheduling v).scheduledDate = none := by
  refine ⟨rfl, rfl, ?_, rfl, rfl⟩
  cases sd with
  | none => simp [markVideoAsProcessing, truthyStr]
  | some s =>
    by_cases hes : s = ""
    · simp [markVideoAsProcessing, truthyStr, hes]
    · simp [markVideoAsProcessing, truthyStr, hes]

-- ---------------------------------------------------------------------------
-- C4 — YouTube auto sub-type rule
-- ---------------------------------------------------------------------------

lemma getYouTubeRuleType_eval (w h d : ℚ) (hd : d ≠ 0) :
    getYouTubeRuleType (some (w, h)) (some d)
      = some (if w / h ≤ (1.1 : ℚ) ∧ d < 60 then PostType.shorts else PostType.video) := by
  have hiff : ((((0.9 : ℚ) ≤ w / h ∧ w / h ≤ (1.1 : ℚ)) ∨ w / h < (0.9 : ℚ))
      ∧ d < 60) ↔ (w / h ≤ (1.1 : ℚ) ∧ d < 60) := by
    constructor
    · rintro ⟨(⟨_, h2⟩ | h2), h3⟩
      · exact ⟨h2, h3⟩
      · exact ⟨by linarith, h3⟩
    · rintro ⟨h2, h3⟩
      rcases le_or_lt (0.9 : ℚ) (w / h) with h4 | h4
      · exact ⟨Or.inl ⟨h4, h2⟩, h3⟩
      · exact ⟨Or.inr h4, h3⟩
  simp only [getYouTubeRuleType, hd, if_false, Bool.and_eq_true, Bool.or_eq_true,
    decide_eq_true_eq]
  rw [apply_ite some, if_congr hiff rfl rfl]

/-- Claim C4: with both dimensions and a (nonzero, positive-height) duration
known, the derived YouTube sub-type is `shorts` exactly when the
width/height ratio is at most 1.1 — square meaning 0.9 ≤ ratio ≤ 1.1,
vertical meaning ratio < 0.9 — AND the duration is under 60 seconds, and
`video` otherwise; whenever the derived sub-type differs from the stored one
the auto-switch overwrites the stored sub-type and rewrites it into every
existing YouTube config entry, and does nothing when they already agree. -/
theorem youtube_rule_derivation (w h d : ℚ) (st : DetailState)
    (hh : 0 < h) (hd : d ≠ 0) :
    (getYouTubeRuleType (some (w, h)) (some d)
        = some (if ((((0.9 : ℚ) ≤ w / h ∧ w / h ≤ (1.1 : ℚ)) ∨ w / h < (0.9 : ℚ))
                    ∧ d < 60)
                then PostType.shorts else PostType.video))
    ∧ (getYouTubeRuleType (some (w, h)) (some d) = some .shorts
        ↔ (w / h ≤ (1.1 : ℚ) ∧ d < 60))
    ∧ (getYouTubeRuleType (some (w, h)) (some d) = some .video
        ↔ ¬ (w / h ≤ (1.1 : ℚ) ∧ d < 60))
    ∧ (∀ t, getYouTubeRuleType (some (w, h)) (some d) = some t →
        st.platformSettings.youtube ≠ t →
        (enforceYouTubeRule (some (w, h)) (some d) st).platformSettings.youtube = t
        ∧ ∀ c ∈ (enforceYouTubeRule (some (w, h)) (some d) st).distributionConfigs,
            c.platform = .youtube → c.postType = t)
    ∧ (∀ t, getYouTubeRuleType (some (w, h)) (some d) = some t →
        st.platformSettings.youtube = t →
        enforceYouTubeRule (some (w, h)) (some d) st = st) := by
  have heval := getYouTubeRuleType_eval w h d hd
  have hiff2 : ((((0.9 : ℚ) ≤ w / h ∧ w / h ≤ (1.1 : ℚ)) ∨ w / h < (0.9 : ℚ))
      ∧ d < 60) ↔ (w / h ≤ (1.1 : ℚ) ∧ d < 60) := by
    constructor
    · rintro ⟨(⟨_, h2⟩ | h2), h3⟩
      · exact ⟨h2, h3⟩
      · exact ⟨by linarith, h3⟩
    · rintro ⟨h2, h3⟩
      rcases le_or_lt (0.9 : ℚ) (w / h) with h4 | h4
      · exact ⟨Or.inl ⟨h4, h2⟩, h3⟩
      · exact ⟨Or.inr h4, h3⟩
  refine ⟨?_, ?_, ?_, ?_, ?_⟩
  · rw [heval, if_congr hiff2.symm rfl rfl]
  · rw [heval]
    by_cases hc : w / h ≤ (1.1 : ℚ) ∧ d < 60
    · simp [hc]
    · simp [hc]
  · rw [heval]
    by_cases hc : w / h ≤ (1.1 : ℚ) ∧ d < 60
    · simp [hc]
    · simp [hc]
  · intro t ht hne
    rw [enforceYouTubeRule, ht]
    simp only [hne, if_true, ne_eq, not_false_eq_true, if_pos]
    constructor
    · rfl
    · intro c hc hplat
      rw [updatePostTypeForPlatform] at hc
      simp only [List.mem_map] at hc
      obtain ⟨c0, _, rfl⟩ := hc
      by_cases hc0 : c0.platform = Platform.youtube
      · simp [hc0]
      · rw [if_neg hc0] at hplat
        exact absurd hplat hc0
  · intro t ht heq
    rw [enforceYouTubeRule, ht]
    simp [heq]

/-- Witness for C4 at a concrete input: a 9:16 vertical video of 45 seconds
derives `shorts`. -/
theorem youtube_rule_derivation_witness :
    getYouTubeRuleType (some (9, 16)) (some 45) = some PostType.shorts := by
  exact (youtube_rule_derivation 9 16 45 sampleState (by norm_num)
    (by norm_num)).2.1.mpr ⟨by norm_num, by norm_num⟩

-- ---------------------------------------------------------------------------
-- C5 — Instagram eligibility checks
-- ---------------------------------------------------------------------------

/-- Claim C5: with known dimensions (positive height) and a known positive
duration, the Instagram ratio check passes exactly when
0.50 ≤ width/height ≤ 0.85 (so ratio 0.49 fails, 0.50 passes, 0.85 passes,
0.86 fails) and the duration check passes exactly when 3 ≤ duration ≤ 3600;
the two checks are separate booleans combined by `isInstagramValid`, and a
video failing either check cannot have Instagram toggled (the toggle click
is a no-op). -/
theorem instagram_eligibility (w h d : ℚ) (st : DetailState)
    (hh : 0 < h) (hd : 0 < d) :
    (isInstagramRatioValid (some (w, h)) = true
        ↔ ((0.50 : ℚ) ≤ w / h ∧ w / h ≤ (0.85 : ℚ)))
    ∧ (isInstagramDurationValid (some d) = true ↔ ((3 : ℚ) ≤ d ∧ d ≤ 3600))
    ∧ isInstagramRatioValid (some (49, 100)) = false
    ∧ isInstagramRatioValid (some (50, 100)) = true
    ∧ isInstagramRatioValid (some (85, 100)) = true
    ∧ isInstagramRatioValid (some (86, 100)) = false
    ∧ isInstagramDurationValid (some 10) = true
    ∧ isInstagramValid (some (w, h)) (some d)
        = (isInstagramRatioValid (some (w, h)) && isInstagramDurationValid (some d))
    ∧ (isInstagramValid (some (w, h)) (some d) = false →
        instagramToggleClick (some (w, h)) (some d) st = st) := by
  refine ⟨?_, ?_, ?_, ?_, ?_, ?_, ?_, rfl, ?_⟩
  · simp [isInstagramRatioValid]
  · simp [isInstagramDurationValid, ne_of_gt hd]
  · norm_num [isInstagramRatioValid]
  · norm_num [isInstagramRatioValid]
  · norm_num [isInstagramRatioValid]
  · norm_num [isInstagramRatioValid]
  · norm_num [isInstagramDurationValid]
  · intro hinv
    rw [instagramToggleClick, hinv]
    rfl

/-- Witness for C5 at a concrete input: a 50:100 video of 10 seconds passes
the ratio check. -/
theorem instagram_eligibility_witness :
    isInstagramRatioValid (some (50, 100)) = true := by
  exact (instagram_eligibility 50 100 10 sampleState (by norm_num)
    (by norm_num)).2.2.2.1

-- ---------------------------------------------------------------------------
-- C8 — toggleAccount double-toggle
-- ---------------------------------------------------------------------------

/-- The metadata the seed produces for `c8state` below. -/
def c8meta : ConfigMetadata :=
  { title := some "T", caption := some "D", tags := some "",
    playlistId := none, categoryId := some "22" }

/-- A YouTube config entry for account "a" matching the current seed. -/
def c8entryA : DistributionConfig :=
  { platform := .youtube, accountId := "a", postType := .video,
    externalId := none, metadata := c8meta }

/-- A YouTube config entry for account "b" matching the current seed. -/
def c8entryB : DistributionConfig :=
  { platform := .youtube, accountId := "b", postType := .video,
    externalId := none, metadata := c8meta }

/-- A modal state in which accounts "a" and "b" are both selected for
YouTube, and the shared metadata/sub-type coincide with both entries (so a
re-seeded entry is identical to the original one). -/
def c8state : DetailState :=
  { selectedPlatforms := [.youtube]
    ytData := { title := "T", description := "D", tags := [], categoryId := "22" }
    igData := { caption := "" }
    ttData := { caption := "" }
    platformSettings :=
      { youtube := .video, instagram := .reel, tiktok := .reel,
        kwai := .video, linkedin := .video }
    distributionConfigs := [c8entryA, c8entryB] }

/-- Counterexample to claim C8: starting from the config list [A, B] with
(youtube, "a") already selected, toggling (youtube, "a") twice yields
[B, A] — removal filters the entry out and the second toggle appends a fresh
entry at the END — so the list does NOT return to its original state for
every starting list (here even though the re-seeded entry is identical, the
order changed). -/
theorem toggleAccount_double_not_involutive :
    (toggleAccountSelection (toggleAccountSelection c8state .youtube "a")
        .youtube "a").distributionConfigs = [c8entryB, c8entryA]
    ∧ ([c8entryB, c8entryA] ≠ [c8entryA, c8entryB])
    ∧ (toggleAccountSelection (toggleAccountSelection c8state .youtube "a")
        .youtube "a").distributionConfigs ≠ c8state.distributionConfigs := by
  refine ⟨by decide, by decide, by decide⟩

/-- Claim C8 as amended: `toggleAccount` removes the (platform, account)
entry when present and otherwise appends one seeded from the platform's
current shared metadata and sub-type, persisting the whole rewritten array;
the double-toggle returns the config list EXACTLY to its original state (and
keeps the persisted length unchanged) in the add-then-remove direction, i.e.
whenever no entry for (platform, account) exists at the start — in the
remove-then-add direction the re-created entry is freshly seeded and
appended at the end, so the original list is generally not restored (see the
counterexample). -/
theorem toggleAccount_double_restores (st : DetailState) (platform : Platform)
    (accountId : String)
    (hsel : isAccountSelected st platform accountId = false) :
    (toggleAccountSelection st platform accountId).distributionConfigs
        = st.distributionConfigs ++
            [{ platform := platform, accountId := accountId,
               postType := st.platformSettings.get platform,
               externalId := none, metadata := seedMetadata st platform }]
    ∧ (toggleAccountSelection (toggleAccountSelection st platform accountId)
        platform accountId) = st
    ∧ (toggleAccountSelection (toggleAccountSelection st platform accountId)
        platform accountId).distributionConfigs.length
        = st.distributionConfigs.length := by
  have hnotmem : ∀ c ∈ st.distributionConfigs,
      (decide (c.platform = platform) && decide (c.accountId = accountId)) = false := by
    intro c hc
    by_contra hne
    have : st.distributionConfigs.any (fun c =>
        decide (c.platform = platform) && decide (c.accountId = accountId)) = true :=
      List.any_eq_true.mpr ⟨c, hc, by revert hne; cases hb :
        (decide (c.platform = platform) && decide (c.accountId = accountId)) <;> simp⟩
    rw [isAccountSelected] at hsel
    rw [hsel] at this
    exact Bool.false_ne_true this
  have hstep1 : (toggleAccountSelection st platform accountId).distributionConfigs
      = st.distributionConfigs ++
          [{ platform := platform, accountId := accountId,
             postType := st.platformSettings.get platform,
             externalId := none, metadata := seedMetadata st platform }] := by
    rw [toggleAccountSelection, hsel]
    simp
  have hsel2 : isAccountSelected (toggleAccountSelection st platform accountId)
      platform accountId = true := by
    rw [isAccountSelected, hstep1, List.any_append]
    simp
  have hstep2 : (toggleAccountSelection (toggleAccountSelection st platform accountId)
      platform accountId).distributionConfigs = st.distributionConfigs := by
    rw [toggleAccountSelection, hsel2]
    simp only [if_true, hstep1, List.filter_append]
    have h1 : st.distributionConfigs.filter (fun c =>
        !(decide (c.platform = platform) && decide (c.accountId = accountId)))
        = st.distributionConfigs := by
      apply List.filter_eq_self.mpr
      intro c hc
      rw [hnotmem c hc]
      rfl
    have h2 : List.filter (fun c =>
        !(decide (c.platform = platform) && decide (c.accountId = accountId)))
        [{ platform := platform, accountId := accountId,
           postType := st.platformSettings.get platform,
           externalId := none, metadata := seedMetadata st platform }]
        = ([] : List DistributionConfig) := by
      simp
    rw [h1, h2, List.append_nil]
  refine ⟨hstep1, ?_, ?_⟩
  · have : toggleAccountSelection (toggleAccountSelection st platform accountId)
        platform accountId
        = { toggleAccountSelection (toggleAccountSelection st platform accountId)
              platform accountId with distributionConfigs := st.distributionConfigs } := by
      rw [← hstep2]
    rw [this]
    rw [toggleAccountSelection, toggleAccountSelection]
  · rw [hstep2]

/-- Witness for C8's amended theorem at a concrete input: in the empty
sample state (nothing selected), double-toggling (youtube, "a") restores the
empty config list. -/
theorem toggleAccount_double_restores_witness :
    isAccountSelected sampleState .youtube "a" = false
    ∧ (toggleAccountSelection (toggleAccountSelection sampleState .youtube "a")
        .youtube "a") = sampleState := by
  exact ⟨by decide,
    (toggleAccount_double_restores sampleState .youtube "a" (by decide)).2.1⟩

-- ---------------------------------------------------------------------------
-- C1 — approve guard
-- ---------------------------------------------------------------------------

lemma isAllReady_iff (st : DetailState)
    (hp : ∀ p ∈ st.selectedPlatforms,
      p = Platform.youtube ∨ p = Platform.instagram ∨ p = Platform.tiktok) :
    isAllReady st = true ↔ specApproveGuard st := by
  rw [isAllReady, specApproveGuard]
  simp only [Bool.and_eq_true, decide_eq_true_eq]
  constructor
  · rintro ⟨⟨⟨⟨⟨⟨hlen, hyt⟩, hig⟩, htt⟩, hay⟩, hai⟩, hat⟩
    refine ⟨List.length_pos.mp hlen, ?_⟩
    intro p hpmem
    rcases hp p hpmem with rfl | rfl | rfl
    · have hin : platformIncludes st.selectedPlatforms .youtube = true :=
        (platformIncludes_iff _ _).mpr hpmem
      rw [isYouTubeReady, hin] at hyt
      rw [hasAccountForYoutube, hin] at hay
      simp only [Bool.not_true, Bool.false_or, Bool.and_eq_true,
        decide_eq_true_eq] at hyt hay
      exact ⟨hyt, List.ne_nil_of_length_pos hay⟩
    · have hin : platformIncludes st.selectedPlatforms .instagram = true :=
        (platformIncludes_iff _ _).mpr hpmem
      rw [isInstagramReady, hin] at hig
      rw [hasAccountForInstagram, hin] at hai
      simp only [Bool.not_true, Bool.false_or, decide_eq_true_eq] at hig hai
      exact ⟨hig, List.ne_nil_of_length_pos hai⟩
    · have hin : platformIncludes st.selectedPlatforms .tiktok = true :=
        (platformIncludes_iff _ _).mpr hpmem
      rw [isTikTokReady, hin] at htt
      rw [hasAccountForTikTok, hin] at hat
      simp only [Bool.not_true, Bool.false_or, decide_eq_true_eq] at htt hat
      exact ⟨htt, List.ne_nil_of_length_pos hat⟩
  · rintro ⟨hne, hall⟩
    have hyt : isYouTubeReady st = true := by
      rw [isYouTubeReady]
      cases hin : platformIncludes st.selectedPlatforms .youtube with
      | false => rfl
      | true =>
        have hmem := (platformIncludes_iff _ _).mp hin
        have h1 := (hall _ hmem).1
        rw [specMetadataReady] at h1
        simp [h1.1, h1.2]
    have hig : isInstagramReady st = true := by
      rw [isInstagramReady]
      cases hin : platformIncludes st.selectedPlatforms .instagram with
      | false => rfl
      | true =>
        have hmem := (platformIncludes_iff _ _).mp hin
        have h1 := (hall _ hmem).1
        rw [specMetadataReady] at h1
        simp [h1]
    have htt : isTikTokReady st = true := by
      rw [isTikTokReady]
      cases hin : platformIncludes st.selectedPlatforms .tiktok with
      | false => rfl
      | true =>
        have hmem := (platformIncludes_iff _ _).mp hin
        have h1 := (hall _ hmem).1
        rw [specMetadataReady] at h1
        simp [h1]
    have hay : hasAccountForYoutube st = true := by
      rw [hasAccountForYoutube]
      cases hin : platformIncludes st.selectedPlatforms .youtube with
      | false => rfl
      | true =>
        have hmem := (platformIncludes_iff _ _).mp hin
        have h2 := (hall _ hmem).2
        simp [List.length_pos.mpr h2]
    have hai : hasAccountForInstagram st = true := by
      rw [hasAccountForInstagram]
      cases hin : platformIncludes st.selectedPlatforms .instagram with
      | false => rfl
      | true =>
        have hmem := (platformIncludes_iff _ _).mp hin
        have h2 := (hall _ hmem).2
        simp [List.length_pos.mpr h2]
    have hat : hasAccountForTikTok st = true := by
      rw [hasAccountForTikTok]
      cases hin : platformIncludes st.selectedPlatforms .tiktok with
      | false => rfl
      | true =>
        have hmem := (platformIncludes_iff _ _).mp hin
        have h2 := (hall _ hmem).2
        simp [List.length_pos.mpr h2]
    exact ⟨⟨⟨⟨⟨⟨List.length_pos.mpr hne, hyt⟩, hig⟩, htt⟩, hay⟩, hai⟩, hat⟩

/-- Claim C1: restricted to the three supported platforms, the approve
transition is allowed if and only if at least one platform is toggled on,
every toggled platform has its required metadata non-empty (YouTube: title
AND description; Instagram/TikTok: caption) and every toggled platform has
at least one DistributionConfig entry; the aggregate `isAllReady` is exactly
the conjunction of the six separate per-platform per-rule booleans plus the
non-empty toggle check, and any single failing guard boolean blocks the
transition. -/
theorem approve_guard_characterization (st : DetailState) (v : VideoAsset)
    (hp : ∀ p ∈ st.selectedPlatforms,
      p = Platform.youtube ∨ p = Platform.instagram ∨ p = Platform.tiktok) :
    ((approveTransition st v).isSome ↔ specApproveGuard st)
    ∧ (isAllReady st =
        (decide (0 < st.selectedPlatforms.length) && isYouTubeReady st
          && isInstagramReady st && isTikTokReady st && hasAccountForYoutube st
          && hasAccountForInstagram st && hasAccountForTikTok st))
    ∧ ((isYouTubeReady st = false ∨ isInstagramReady st = false
        ∨ isTikTokReady st = false ∨ hasAccountForYoutube st = false
        ∨ hasAccountForInstagram st = false ∨ hasAccountForTikTok st = false
        ∨ st.selectedPlatforms = []) →
        approveTransition st v = none)
    ∧ ((approveTransition st v).isSome →
        ∃ v2, approveTransition st v = some v2 ∧ v2.status = .approved
          ∧ v2.distributionConfig = st.distributionConfigs) := by
  have hiff := isAllReady_iff st hp
  have hsome : (approveTransition st v).isSome = true ↔ isAllReady st = true := by
    rw [approveTransition]
    cases hA : isAllReady st <;> simp [hA]
  refine ⟨by rw [hsome, hiff], rfl, ?_, ?_⟩
  · intro hbad
    have hfalse : isAllReady st = false := by
      rw [isAllReady]
      rcases hbad with hb | hb | hb | hb | hb | hb | hb
      · simp [hb]
      · simp [hb]
      · simp [hb]
      · simp [hb]
      · simp [hb]
      · simp [hb]
      · simp [hb]
    rw [approveTransition, hfalse]
    rfl
  · intro hs
    rw [approveTransition] at hs ⊢
    by_cases hA : isAllReady st = true
    · rw [if_pos hA]
      exact ⟨_, rfl, rfl, rfl⟩
    · rw [if_neg hA] at hs
      exact absurd hs (by simp)

/-- A modal state that satisfies every approve guard: YouTube toggled with
title, description and one selected account. -/
def c1readyState : DetailState :=
  { selectedPlatforms := [.youtube]
    ytData := { title := "T", description := "D", tags := [], categoryId := "22" }
    igData := { caption := "" }
    ttData := { caption := "" }
    platformSettings :=
      { youtube := .video, instagram := .reel, tiktok := .reel,
        kwai := .video, linkedin := .video }
    distributionConfigs := [c8entryA] }

/-- Witness for C1 at concrete inputs: the ready state passes the guard (and
the transition fires), while the empty sample state is blocked. -/
theorem approve_guard_characterization_witness :
    (approveTransition c1readyState c7video).isSome
    ∧ approveTransition sampleState c7video = none := by
  constructor
  · exact ((approve_guard_characterization c1readyState c7video
      (by decide)).1).mpr (by
        constructor
        · simp [c1readyState]
        · intro p hpmem
          have hpy : p = Platform.youtube := by
            simpa [c1readyState] using hpmem
          subst hpy
          refine ⟨?_, ?_⟩
          · rw [specMetadataReady]
            constructor <;> decide
          · decide)
  · exact (approve_guard_characterization sampleState c7video
      (by decide)).2.2.1 (Or.inr (Or.inr (Or.inr (Or.inr (Or.inr (Or.inr rfl))))))

-- ---------------------------------------------------------------------------
-- C2 — distribute partial failure
-- ---------------------------------------------------------------------------

/-- First YouTube config entry for the distribute scenarios. -/
def c2cfgA : DistributionConfig :=
  { platform := .youtube, accountId := "accA", postType := .video }

/-- Second YouTube config entry for the distribute scenarios. -/
def c2cfgB : DistributionConfig :=
  { platform := .youtube, accountId := "accB", postType := .video }

/-- Token-bearing integrations for both accounts. -/
def c2integs : List Integration :=
  [{ id := "accA", platform := .youtube, accessToken := some "tokA" },
   { id := "accB", platform := .youtube, accessToken := some "tokB" }]

/-- An adapter whose upload succeeds for account "accA" and throws a
non-auth error for every other account. -/
def c2adapter : DistributionConfig → UploadResult := fun c =>
  if c.accountId = "accA" then .ok "ytVidA" else .err "uploadFailed"

/-- The approved asset whose persisted config array is [A, B]. -/
def c2video : VideoAsset :=
  { id := "v2", status := .approved, distributionConfig := [c2cfgA, c2cfgB] }

/-- Counterexample to claim C2: in the two-entry scenario where A's adapter
call succeeds and B's throws, the error propagates, B is left untouched and
the status stays `approved` — but A's remote id is recorded ONLY in the
in-memory config array; the persisted config array of the asset is unchanged
(both persisted externalIds still absent), refuting the claim's assertion
that each success "persists the whole config array". -/
theorem distribute_partial_failure_counterexample :
    (handleConfirm c2adapter c2integs "2026-01-01T00:00:00.000Z" none c2video
        [c2cfgA, c2cfgB]).errorMsg = some "uploadFailed"
    ∧ (handleConfirm c2adapter c2integs "2026-01-01T00:00:00.000Z" none c2video
        [c2cfgA, c2cfgB]).memConfigs.map (fun c => c.externalId)
        = [some "ytVidA", none]
    ∧ (handleConfirm c2adapter c2integs "2026-01-01T00:00:00.000Z" none c2video
        [c2cfgA, c2cfgB]).video = c2video
    ∧ (handleConfirm c2adapter c2integs "2026-01-01T00:00:00.000Z" none c2video
        [c2cfgA, c2cfgB]).video.distributionConfig.map (fun c => c.externalId)
        = [none, none]
    ∧ (handleConfirm c2adapter c2integs "2026-01-01T00:00:00.000Z" none c2video
        [c2cfgA, c2cfgB]).video.status = .approved := by
  refine ⟨by decide, by decide, by decide, by decide, by decide⟩

/-- Claim C2 as amended: entries are processed one adapter call at a time
(only YouTube entries with a token-bearing integration are attempted); when
an adapter call throws a (non-auth) error the error propagates immediately,
the following entry is not attempted, and the asset does not transition —
its stored status stays `approved` and its persisted config array is
untouched; the succeeded entry keeps its recorded non-empty remote id in the
IN-MEMORY config array only (not rolled back), the failed and unattempted
entries have none, and the config array is persisted (together with the
status transition) only when every call succeeds. -/
theorem distribute_partial_failure
    (adapter : DistributionConfig → UploadResult) (integs : List Integration)
    (now : String) (fd : Option String) (v : VideoAsset)
    (cfgA cfgB : DistributionConfig) (iA iB : Integration) (ridA emsg : String)
    (hAp : cfgA.platform = .youtube) (hBp : cfgB.platform = .youtube)
    (hAi : findIntegration integs cfgA.accountId = some iA)
    (hBi : findIntegration integs cfgB.accountId = some iB)
    (hAt : truthyStr iA.accessToken = true) (hBt : truthyStr iB.accessToken = true)
    (hAok : adapter cfgA = .ok ridA) (hBerr : adapter cfgB = .err emsg)
    (hBx : cfgB.externalId = none) (hridA : ridA ≠ "")
    (hst : v.status = .approved) :
    ((handleConfirm adapter integs now fd v [cfgA, cfgB]).errorMsg = some emsg)
    ∧ ((handleConfirm adapter integs now fd v [cfgA, cfgB]).attempted
        = [cfgA.accountId, cfgB.accountId])
    ∧ ((handleConfirm adapter integs now fd v [cfgA, cfgB]).memConfigs
        = [{ cfgA with externalId := some ridA }, cfgB])
    ∧ truthyStr ({ cfgA with externalId := some ridA }).externalId = true
    ∧ truthyStr cfgB.externalId = false
    ∧ ((handleConfirm adapter integs now fd v [cfgA, cfgB]).video = v)
    ∧ ((handleConfirm adapter integs now fd v [cfgA, cfgB]).video.status
        = .approved)
    ∧ (∀ configs : List DistributionConfig,
        (handleConfirm adapter integs now fd v configs).errorMsg.isSome →
        (handleConfirm adapter integs now fd v configs).video = v)
    ∧ (∀ configs : List DistributionConfig, configs ≠ [] →
        (handleConfirm adapter integs now fd v configs).errorMsg = none →
        (handleConfirm adapter integs now fd v configs).video
          = markVideoAsProcessing now
              (handleConfirm adapter integs now fd v configs).memConfigs fd v) := by
  have hloop : uploadLoop adapter integs [cfgA, cfgB]
      = ([{ cfgA with externalId := some ridA }, cfgB],
         [cfgA.accountId, cfgB.accountId], some emsg) := by
    rw [uploadLoop]
    simp only [hAp, if_true, hAi, hAt, hAok]
    rw [uploadLoop]
    simp only [hBp, if_true, hBi, hBt, hBerr]
  have hmain : handleConfirm adapter integs now fd v [cfgA, cfgB]
      = { video := v
          memConfigs := [{ cfgA with externalId := some ridA }, cfgB]
          attempted := [cfgA.accountId, cfgB.accountId]
          errorMsg := some emsg } := by
    rw [handleConfirm]
    simp only [List.length_cons, List.length_nil]
    rw [if_neg (by omega), hloop]
  refine ⟨by rw [hmain], by rw [hmain], by rw [hmain],
    by simp [truthyStr, hridA], by rw [hBx]; rfl, by rw [hmain],
    by rw [hmain, hst], ?_, ?_⟩
  · intro configs hsome
    rw [handleConfirm] at hsome ⊢
    by_cases hlen : configs.length = 0
    · rw [if_pos hlen]
    · rw [if_neg hlen] at hsome ⊢
      rcases hu : uploadLoop adapter integs configs with ⟨cs2, att, e⟩
      rw [hu] at hsome
      cases e with
      | none => exact Bool.noConfusion hsome
      | some m => rfl
  · intro configs hne he
    rw [handleConfirm] at he ⊢
    rw [if_neg (by simpa using hne)] at he ⊢
    rcases hu : uploadLoop adapter integs configs with ⟨cs2, att, e⟩
    rw [hu] at he
    cases e with
    | none => rfl
    | some m => exact Option.noConfusion he

/-- Witness for C2's amended theorem at the concrete scenario: the error
propagates and the store document stays untouched. -/
theorem distribute_partial_failure_witness :
    (handleConfirm c2adapter c2integs "2026-01-02T00:00:00.000Z" none c2video
        [c2cfgA, c2cfgB]).errorMsg = some "uploadFailed"
    ∧ (handleConfirm c2adapter c2integs "2026-01-02T00:00:00.000Z" none c2video
        [c2cfgA, c2cfgB]).video = c2video := by
  have h := distribute_partial_failure c2adapter c2integs
    "2026-01-02T00:00:00.000Z" none c2video c2cfgA c2cfgB
    { id := "accA", platform := .youtube, accessToken := some "tokA" }
    { id := "accB", platform := .youtube, accessToken := some "tokB" }
    "ytVidA" "uploadFailed"
    (by decide) (by decide) (by decide) (by decide) (by decide) (by decide)
    (by decide) (by decide) (by decide) (by decide) (by decide)
  exact ⟨h.1, h.2.2.2.2.2.1⟩

-- ---------------------------------------------------------------------------
-- C3 — cancel schedule
-- ---------------------------------------------------------------------------

/-- A published YouTube config entry (remote id "yt1") for the cancel
scenarios. -/
def c3cfg1 : DistributionConfig :=
  { platform := .youtube, accountId := "accA", postType := .video,
    externalId := some "yt1" }

/-- A second published YouTube config entry (remote id "yt2"). -/
def c3cfg2 : DistributionConfig :=
  { platform := .youtube, accountId := "accB", postType := .video,
    externalId := some "yt2" }

/-- A scheduled asset with TWO externalId-carrying YouTube entries. -/
def c3video : VideoAsset :=
  { id := "v3", projectId := some "p1", status := .scheduled,
    scheduledDate := some "2026-02-01T09:00:00.000Z",
    distributionConfig := [c3cfg1, c3cfg2] }

/-- A deletion adapter that always succeeds. -/
def c3okOutcome : String → DeleteResult := fun _ => .ok

/-- A deletion adapter that always fails with a non-404 error. -/
def c3errOutcome : String → DeleteResult := fun _ => .err "rateLimited"

/-- Counterexample to claim C3, on two points.  First, with two
externalId-carrying entries only ONE remote deletion is attempted (the code
looks up just the first YouTube entry), so deletion is NOT attempted "for
each config entry carrying an externalId".  Second, when the remote deletion
fails with a non-404 error the operation does NOT proceed to clearing local
state: the catch block leaves the asset untouched — still `scheduled`, with
its `scheduledDate` and externalIds intact. -/
theorem cancel_schedule_claim_counterexample :
    (cancelScheduleOp c3okOutcome c2integs [] c3video
        = some (onConfirmCancel c3okOutcome c2integs [] c3video))
    ∧ (onConfirmCancel c3okOutcome c2integs [] c3video).attempted = ["yt1"]
    ∧ "yt2" ∉ (onConfirmCancel c3okOutcome c2integs [] c3video).attempted
    ∧ (onConfirmCancel c3errOutcome c2integs [] c3video).cancelled = false
    ∧ (onConfirmCancel c3errOutcome c2integs [] c3video).video = c3video
    ∧ (onConfirmCancel c3errOutcome c2integs [] c3video).video.status = .scheduled
    ∧ (onConfirmCancel c3errOutcome c2integs [] c3video).video.scheduledDate
        = some "2026-02-01T09:00:00.000Z" := by
  refine ⟨by decide, by decide, by decide, by decide, by decide, by decide,
    by decide⟩

/-- Claim C3 as amended: the cancel operation is reachable only while the
status is `scheduled`; remote deletion is attempted only for the FIRST
YouTube entry carrying a truthy externalId (skipped when its integration or
token is missing); an "already deleted"/not-found response — like a plain
success — is treated as success, after which `scheduledDate` is cleared,
externalIds are stripped from ALL entries, the cleaned config is persisted,
the status transitions back to `approved` and project stats are recomputed;
any OTHER adapter error aborts the operation and no local state changes. -/
theorem cancel_schedule_behavior (outcome : String → DeleteResult)
    (integs : List Integration) (others : List VideoAsset) (v : VideoAsset) :
    (v.status ≠ .scheduled → cancelScheduleOp outcome integs others v = none)
    ∧ (v.status = .scheduled →
        cancelScheduleOp outcome integs others v
          = some (onConfirmCancel outcome integs others v))
    ∧ (∀ vid, outcome vid = .ok → deleteVideoFromYouTube outcome vid = none)
    ∧ (∀ vid, outcome vid = .notFound → deleteVideoFromYouTube outcome vid = none)
    ∧ ((cancelDeletionPhase outcome integs v).1 = none →
        (onConfirmCancel outcome integs others v).cancelled = true
        ∧ (onConfirmCancel outcome integs others v).video.status = .approved
        ∧ (onConfirmCancel outcome integs others v).video.scheduledDate = none
        ∧ (onConfirmCancel outcome integs others v).video.distributionConfig
            = v.distributionConfig.map stripExternalId
        ∧ (∀ c ∈ (onConfirmCancel outcome integs others v).video.distributionConfig,
            c.externalId = none)
        ∧ (v.projectId.isSome →
            (onConfirmCancel outcome integs others v).statsAfter
              = some (recalculateProjectStats
                  ((onConfirmCancel outcome integs others v).video :: others))))
    ∧ (∀ m, (cancelDeletionPhase outcome integs v).1 = some m →
        (onConfirmCancel outcome integs others v).cancelled = false
        ∧ (onConfirmCancel outcome integs others v).video = v) := by
  refine ⟨?_, ?_, ?_, ?_, ?_, ?_⟩
  · intro hne
    rw [cancelScheduleOp, if_neg hne]
  · intro heq
    rw [cancelScheduleOp, if_pos heq]
  · intro vid hok
    rw [deleteVideoFromYouTube, hok]
  · intro vid hnf
    rw [deleteVideoFromYouTube, hnf]
  · intro hdel
    rcases hphase : cancelDeletionPhase outcome integs v with ⟨e, att⟩
    rw [hphase] at hdel
    subst hdel
    have hrun : onConfirmCancel outcome integs others v
        = { video := cancelVideoScheduling v
            attempted := att
            cancelled := true
            statsAfter :=
              if v.projectId.isSome then
                some (recalculateProjectStats (cancelVideoScheduling v :: others))
              else none } := by
      rw [onConfirmCancel, hphase]
    rw [hrun]
    refine ⟨rfl, rfl, rfl, rfl, ?_, ?_⟩
    · intro c hc
      simp only [cancelVideoScheduling, List.mem_map] at hc
      obtain ⟨c0, _, rfl⟩ := hc
      rfl
    · intro hproj
      simp [hproj]
  · intro m hdel
    rcases hphase : cancelDeletionPhase outcome integs v with ⟨e, att⟩
    rw [hphase] at hdel
    subst hdel
    have hrun : onConfirmCancel outcome integs others v
        = { video := v, attempted := att, cancelled := false,
            statsAfter := none } := by
      rw [onConfirmCancel, hphase]
    rw [hrun]
    exact ⟨rfl, rfl⟩

/-- Witness for C3's amended theorem at concrete inputs: a not-found
deletion response still lets the cancel succeed and clear local state, and a
non-scheduled asset cannot reach the operation at all. -/
theorem cancel_schedule_behavior_witness :
    ((onConfirmCancel (fun _ => DeleteResult.notFound) c2integs [] c3video).video.status
        = .approved)
    ∧ ((onConfirmCancel (fun _ => DeleteResult.notFound) c2integs [] c3video).video.scheduledDate
        = none)
    ∧ cancelScheduleOp (fun _ => DeleteResult.notFound) c2integs [] c2video = none := by
  have h := cancel_schedule_behavior (fun _ => DeleteResult.notFound) c2integs [] c3video
  have h2 := cancel_schedule_behavior (fun _ => DeleteResult.notFound) c2integs [] c2video
  have hphase : (cancelDeletionPhase (fun _ => DeleteResult.notFound) c2integs c3video).1
      = none := by decide
  exact ⟨(h.2.2.2.2.1 hphase).2.1, (h.2.2.2.2.1 hphase).2.2.1,
    h2.1 (by decide)⟩

end Mandrill
